import Mathlib

/-!
Shallow embedding of the kargo-talk-demo admission webhook validator
(`webhook_validator.go`) and of the secondary logging/echo webhook receiver.

Modelling conventions:
* Go maps guarded by the client's RWMutex become association lists threaded
  through the functions as explicit state (`MockSlackClient`).
* The goroutine racing against the context deadline inside `ValidateMessage`
  becomes a comparison between the check's actual wall-clock duration
  (`checkDuration`, an explicit parameter, in milliseconds) and the
  validator's configured `timeout`: the check's completion signal wins the
  select exactly when it arrives strictly before the deadline.  The source's
  select has a malformed conditional nesting; per the intended behaviour the
  first of check-result or deadline wins.
* `time.Now().UnixNano()` becomes the explicit parameter `nowNanos`.
* Fallible JSON decoding in the HTTP handler becomes the `HandlerInput`
  inductive: the body either fails to read, fails to parse, or parses to a
  `WebhookRequest` whose `object` field is absent/null, a non-mapping value,
  or a structured mapping already decoded to a `MockKargoMessage`.
-/

/-- One entry of `spec.subscriptions` in `MockKargoMessage`. -/
structure Subscription where
  stage : String
  events : List String
  deriving DecidableEq, Repr

/-- The `metadata` block of `MockKargoMessage`. -/
structure KargoMetadata where
  name : String
  «namespace» : String
  labels : List (String × String)
  deriving DecidableEq, Repr

/-- The `spec` block of `MockKargoMessage`. -/
structure KargoSpec where
  slackChannel : String
  message : String
  team : String
  channelType : String
  subscriptions : List Subscription
  deriving DecidableEq, Repr

/-- The `status` block of `MockKargoMessage` (`createdAt` as Unix nanoseconds). -/
structure KargoStatus where
  createdAt : Nat
  state : String
  deriving DecidableEq, Repr

/-- The candidate object validated by the webhook (`MockKargoMessage`). -/
structure MockKargoMessage where
  apiVersion : String
  kind : String
  metadata : KargoMetadata
  spec : KargoSpec
  status : KargoStatus
  deriving DecidableEq, Repr

/-- The `resource` descriptor inside an admission request. -/
structure ResourceRef where
  group : String
  version : String
  resource : String
  deriving DecidableEq, Repr

/-- The decoded shape of the `object` field of an admission request: JSON
null / absent, a structured mapping (already re-decoded to the candidate
message, as the handler does via marshal + unmarshal), or some other
non-mapping JSON value. -/
inductive ObjectValue where
  | null
  | mapping (msg : MockKargoMessage)
  | nonMapping
  deriving DecidableEq, Repr

/-- The inner `request` block of `WebhookRequest`. -/
structure AdmissionRequestData where
  uid : String
  dryRun : Bool
  object : ObjectValue
  resource : ResourceRef
  subResource : String
  deriving DecidableEq, Repr

/-- The inbound admission-review envelope (`WebhookRequest`). -/
structure WebhookRequest where
  apiVersion : String
  kind : String
  request : AdmissionRequestData
  deriving DecidableEq, Repr

/-- The structured `result` carried on denial: `{status, reason}`. -/
structure ResultInfo where
  status : String
  reason : String
  deriving DecidableEq, Repr

/-- The inner `response` block of `WebhookResponse`. -/
structure AdmissionResponseData where
  uid : String
  allowed : Bool
  patch : List Nat
  patchType : String
  result : Option ResultInfo
  deriving DecidableEq, Repr

/-- The outbound admission-review envelope (`WebhookResponse`). -/
structure WebhookResponse where
  apiVersion : String
  kind : String
  response : AdmissionResponseData
  deriving DecidableEq, Repr

/-- The mock Slack client's state: `channels` maps channel id to the private
flag, `conversations` is carried but never used by the validator, and
`lastChannelReq` records the display name of the last creation request.  In
the source all access is serialized by an RWMutex; here the state is threaded
explicitly. -/
structure MockSlackClient where
  channels : List (String × Bool)
  conversations : List (String × String)
  lastChannelReq : String
  deriving DecidableEq, Repr

/-- `NewMockSlackClient`: empty registry. -/
def NewMockSlackClient : MockSlackClient :=
  { channels := [], conversations := [], lastChannelReq := "" }

/-- Insert into an association list with Go-map semantics: overwrite the
value when the key is present, append otherwise. -/
def mapInsert (k : String) (b : Bool) : List (String × Bool) → List (String × Bool)
  | [] => [(k, b)]
  | (k', b') :: rest =>
      if k' = k then (k, b) :: rest else (k', b') :: mapInsert k b rest

/-- `fmt.Sprintf("C%08x", n)`: the letter C followed by `n` in lowercase
hexadecimal, zero-padded to eight digits. -/
def chanId (n : Nat) : String :=
  let ds := Nat.toDigits 16 n
  "C" ++ String.mk (List.replicate (8 - ds.length) '0' ++ ds)

/-- `MockSlackClient.CreateConversation`: allocate an id from the current
registry size, record it with its visibility flag, remember the display
name, and return the id.  The Go mock never returns a non-nil error. -/
def CreateConversation (st : MockSlackClient) (name : String) (isPrivate : Bool) :
    String × MockSlackClient :=
  let channelID := chanId st.channels.length
  (channelID,
    { channels := mapInsert channelID isPrivate st.channels
      conversations := st.conversations
      lastChannelReq := name })

/-- `MockSlackClient.ChannelExists`: pure lookup of the id among the keys. -/
def ChannelExists (st : MockSlackClient) (channelID : String) : Bool :=
  st.channels.any (fun p => p.1 == channelID)

/-- The `Validator` configuration; `timeout` in milliseconds (the Go client
pointer is passed instead as explicit `MockSlackClient` state). -/
structure Validator where
  timeout : Nat
  deriving DecidableEq, Repr

/-- `NewValidator`: 30-second default budget. -/
def NewValidator : Validator := { timeout := 30000 }

/-- The error value returned alongside the response: the check's own error
message, or `context.DeadlineExceeded` from the expired context. -/
inductive ValidatorError where
  | checkFailed (msg : String)
  | deadlineExceeded
  deriving DecidableEq, Repr

/-- The per-entry test of the subscription loop: stage checked first, then
events. -/
def subscriptionViolation (sub : Subscription) : Option String :=
  if sub.stage = "" then some "subscription stage cannot be empty"
  else if sub.events.length = 0 then some "subscription must have at least one event"
  else none

/-- The `for _, sub := range msg.Spec.Subscriptions` loop: first violation
in list order wins, later entries are not examined. -/
def checkSubscriptions : List Subscription → Option String
  | [] => none
  | sub :: rest =>
      match subscriptionViolation sub with
      | some e => some e
      | none => checkSubscriptions rest

/-- `Validator.validateSlackChannelCreation`: required-field checks, then
create + existence verification against the client, then the subscription
loop (the 100 ms `time.Sleep` between the two is part of the check's
wall-clock duration, modelled by `ValidateMessage`'s duration parameter).
Returns the check outcome together with the updated client state. -/
def validateSlackChannelCreation (st : MockSlackClient) (msg : MockKargoMessage) :
    Except String Unit × MockSlackClient :=
  if msg.spec.slackChannel = "" then
    (Except.error "slackChannel is required", st)
  else if msg.metadata.«namespace» = "" then
    (Except.error "namespace is required", st)
  else
    let r := CreateConversation st msg.spec.slackChannel (msg.spec.channelType == "private")
    if ChannelExists r.2 r.1 = false then
      (Except.error ("Slack channel " ++ r.1 ++ " not found after creation"), r.2)
    else
      match checkSubscriptions msg.spec.subscriptions with
      | some e => (Except.error e, r.2)
      | none => (Except.ok (), r.2)

/-- `Validator.ValidateMessage`: build the envelope pre-set to allowed with a
freshly generated uid, race the check against the deadline, and translate the
winner into the decision.  `checkDuration` is the check's actual wall-clock
duration in milliseconds; the check wins the select exactly when it finishes
strictly before the deadline.  On timeout the in-flight check's result (and
its eventual state mutation, which happens on the abandoned goroutine) is
discarded. -/
def ValidateMessage (v : Validator) (st : MockSlackClient) (msg : MockKargoMessage)
    (nowNanos checkDuration : Nat) :
    WebhookResponse × Option ValidatorError × MockSlackClient :=
  let resp : WebhookResponse :=
    { apiVersion := "admission.k8s.io/v1"
      kind := "AdmissionReview"
      response :=
        { uid := "test-uid-" ++ toString nowNanos
          allowed := true
          patch := []
          patchType := ""
          result := none } }
  if checkDuration < v.timeout then
    let r := validateSlackChannelCreation st msg
    match r.1 with
    | Except.error e =>
        ({ resp with response :=
            { resp.response with
                allowed := false
                result := some { status := "Failure"
                                 reason := "Slack channel validation failed: " ++ e } } },
         some (ValidatorError.checkFailed e), r.2)
    | Except.ok _ => (resp, none, r.2)
  else
    ({ resp with response :=
        { resp.response with
            allowed := false
            result := some { status := "Failure"
                             reason := "Slack channel validation timeout" } } },
     some ValidatorError.deadlineExceeded, st)

/-- The transport-level input to `WebhookHandler`: reading the body failed,
the body was not well-formed JSON, or it parsed to a request envelope. -/
inductive HandlerInput where
  | readFailure
  | malformedJson
  | parsed (req : WebhookRequest)
  deriving DecidableEq, Repr

/-- The observable outcome of one `WebhookHandler` call: HTTP status code,
the encoded response body when one is written, whether the Validator was
invoked, and the client state afterwards. -/
structure HandlerResult where
  status : Nat
  respBody : Option WebhookResponse
  validatorInvoked : Bool
  finalState : MockSlackClient
  deriving DecidableEq, Repr

/-- `Validator.WebhookHandler`: body-read and JSON errors answer 400 before
the Validator runs; a non-mapping `object` answers 400 with
"Invalid object format"; otherwise the decoded candidate is validated and the
response encoded, with status 500 on a validator error and 200 otherwise. -/
def WebhookHandler (v : Validator) (st : MockSlackClient) (input : HandlerInput)
    (nowNanos checkDuration : Nat) : HandlerResult :=
  match input with
  | HandlerInput.readFailure =>
      { status := 400, respBody := none, validatorInvoked := false, finalState := st }
  | HandlerInput.malformedJson =>
      { status := 400, respBody := none, validatorInvoked := false, finalState := st }
  | HandlerInput.parsed req =>
      match req.request.object with
      | ObjectValue.mapping msg =>
          let r := ValidateMessage v st msg nowNanos checkDuration
          match r.2.1 with
          | some _ =>
              { status := 500, respBody := some r.1, validatorInvoked := true,
                finalState := r.2.2 }
          | none =>
              { status := 200, respBody := some r.1, validatorInvoked := true,
                finalState := r.2.2 }
      | _ =>
          { status := 400, respBody := none, validatorInvoked := false, finalState := st }

/-- The expected value of the X-Webhook-Secret header in the echo receiver. -/
def expectedSecret : String := "my-super-secret-123"

/-- The observable outcome of the logging/echo receiver: HTTP status,
whether the body-reading/logging section was reached, and the success echo
message when one is written. -/
structure EchoResult where
  status : Nat
  bodyProcessed : Bool
  respMessage : Option String
  deriving DecidableEq, Repr

/-- The secondary logging/echo `webhookHandler`: non-POST answers 405; an
absent secret header (`r.Header.Get` yields the empty string) answers 401; a
wrong secret answers 403; otherwise the body is read (a read error answers
400) and the success echo is written with status 200 regardless of whether
the body is valid JSON. -/
def webhookHandler (method secret : String) (bodyReadOk : Bool) : EchoResult :=
  if method ≠ "POST" then
    { status := 405, bodyProcessed := false, respMessage := none }
  else if secret ≠ "" then
    if secret ≠ expectedSecret then
      { status := 403, bodyProcessed := false, respMessage := none }
    else if bodyReadOk then
      { status := 200, bodyProcessed := true,
        respMessage := some "Webhook received successfully" }
    else
      { status := 400, bodyProcessed := true, respMessage := none }
  else
    { status := 401, bodyProcessed := false, respMessage := none }

/-- Fold a list of `CreateConversation` calls (display name, private flag)
over the client state. -/
def applyCreates (st : MockSlackClient) : List (String × Bool) → MockSlackClient
  | [] => st
  | (name, p) :: rest => applyCreates (CreateConversation st name p).2 rest

/-- Does the character list start with the given pattern? -/
def listStartsWith : List Char → List Char → Bool
  | [], _ => true
  | _ :: _, [] => false
  | p :: ps, c :: cs => p == c && listStartsWith ps cs

/-- Does the character list contain the pattern as a contiguous run? -/
def listContainsSub (pat : List Char) : List Char → Bool
  | [] => listStartsWith pat []
  | c :: cs => listStartsWith pat (c :: cs) || listContainsSub pat cs

/-- Substring containment on strings. -/
def strContainsSub (s pat : String) : Bool :=
  listContainsSub pat.toList s.toList

/-! Helper lemmas about the registry and the subscription loop. -/

theorem mapInsert_any (k : String) (b : Bool) (cid : String) :
    ∀ l : List (String × Bool),
      (mapInsert k b l).any (fun p => p.1 == cid) =
        ((k == cid) || l.any (fun p => p.1 == cid)) := by
  intro l
  induction l with
  | nil => simp [mapInsert]
  | cons hd t ih =>
      obtain ⟨k', b'⟩ := hd
      by_cases hk : k' = k
      · subst hk
        cases h : (k' == cid) <;> simp [mapInsert, List.any_cons, h]
      · simp only [mapInsert, if_neg hk, List.any_cons, ih]
        cases h : (k == cid) <;> cases h' : (k' == cid) <;> simp [h, h']

theorem mapInsert_any_self (k : String) (b : Bool) :
    ∀ l : List (String × Bool), (mapInsert k b l).any (fun p => p.1 == k) = true := by
  intro l
  simp [mapInsert_any]

theorem mapInsert_any_mono (k : String) (b : Bool) (cid : String) :
    ∀ l : List (String × Bool), l.any (fun p => p.1 == cid) = true →
      (mapInsert k b l).any (fun p => p.1 == cid) = true := by
  intro l h
  simp [mapInsert_any, h]

theorem mapInsert_length_of_fresh (k : String) (b : Bool) :
    ∀ l : List (String × Bool), l.any (fun p => p.1 == k) = false →
      (mapInsert k b l).length = l.length + 1 := by
  intro l
  induction l with
  | nil => intro _; rfl
  | cons hd t ih =>
      obtain ⟨k', b'⟩ := hd
      intro h
      have h' : ¬(k' = k) ∧ t.any (fun p => p.1 == k) = false := by
        constructor
        · intro hk
          simp [hk] at h
        · by_contra hc
          have : t.any (fun p => p.1 == k) = true := by
            cases hv : t.any (fun p => p.1 == k)
            · exact absurd hv hc
            · rfl
          simp [this] at h
      simp [mapInsert, h'.1, ih h'.2]

theorem channelExists_create (st : MockSlackClient) (name : String) (isPrivate : Bool) :
    ChannelExists (CreateConversation st name isPrivate).2
      (CreateConversation st name isPrivate).1 = true := by
  simp [ChannelExists, CreateConversation, mapInsert_any_self]

theorem channelExists_create_mono (st : MockSlackClient) (name : String) (isPrivate : Bool)
    (cid : String) (h : ChannelExists st cid = true) :
    ChannelExists (CreateConversation st name isPrivate).2 cid = true := by
  simpa [ChannelExists, CreateConversation] using
    mapInsert_any_mono (chanId st.channels.length) isPrivate cid st.channels
      (by simpa [ChannelExists] using h)

theorem channelExists_applyCreates (cid : String) :
    ∀ (calls : List (String × Bool)) (st : MockSlackClient),
      ChannelExists st cid = true → ChannelExists (applyCreates st calls) cid = true := by
  intro calls
  induction calls with
  | nil => intro st h; simpa [applyCreates] using h
  | cons c rest ih =>
      intro st h
      obtain ⟨name, p⟩ := c
      exact ih _ (channelExists_create_mono st name p cid h)

theorem checkSubscriptions_none_of_wf :
    ∀ subs : List Subscription,
      (∀ s ∈ subs, s.stage ≠ "" ∧ s.events ≠ []) → checkSubscriptions subs = none := by
  intro subs
  induction subs with
  | nil => intro _; rfl
  | cons s rest ih =>
      intro h
      have hs := h s (by simp)
      have hv : subscriptionViolation s = none := by
        simp [subscriptionViolation, hs.1, List.length_eq_zero, hs.2]
      simp [checkSubscriptions, hv, ih (fun t ht => h t (by simp [ht]))]

theorem checkSubscriptions_first (bad : Subscription) (rest : List Subscription)
    (e : String) (hbad : subscriptionViolation bad = some e) :
    ∀ pre : List Subscription, (∀ s ∈ pre, subscriptionViolation s = none) →
      checkSubscriptions (pre ++ bad :: rest) = some e := by
  intro pre
  induction pre with
  | nil => intro _; simp [checkSubscriptions, hbad]
  | cons p t ih =>
      intro h
      have hp := h p (by simp)
      simp [checkSubscriptions, hp, ih (fun s hs => h s (by simp [hs]))]

theorem validateSCC_after_fields (st : MockSlackClient) (msg : MockKargoMessage)
    (h1 : msg.spec.slackChannel ≠ "") (h2 : msg.metadata.«namespace» ≠ "") :
    validateSlackChannelCreation st msg =
      ((match checkSubscriptions msg.spec.subscriptions with
        | some e => Except.error e
        | none => Except.ok ()),
       (CreateConversation st msg.spec.slackChannel (msg.spec.channelType == "private")).2) := by
  unfold validateSlackChannelCreation
  rw [if_neg h1, if_neg h2]
  simp only [channelExists_create, Bool.true_eq_false, if_false, if_neg]
  cases hcs : checkSubscriptions msg.spec.subscriptions <;> simp [channelExists_create, hcs]

/-! Concrete inputs used by witnesses and counterexamples. -/

/-- A well-formed candidate, mirroring the repository's success test case. -/
def msgValid : MockKargoMessage :=
  { apiVersion := "kargo.akuity.io/v1alpha1"
    kind := "SlackMessage"
    metadata := { name := "test-slack-msg", «namespace» := "kargo", labels := [("app", "kargo")] }
    spec :=
      { slackChannel := "kargo-notifications"
        message := "Pipeline completed successfully"
        team := ""
        channelType := "public"
        subscriptions :=
          [{ stage := "production", events := ["PromoteSucceeded"] },
           { stage := "staging", events := ["PromoteFailed"] }] }
    status := { createdAt := 0, state := "" } }

/-- A candidate with an empty target-channel identifier. -/
def msgNoChannel : MockKargoMessage :=
  { apiVersion := "kargo.akuity.io/v1alpha1"
    kind := "SlackMessage"
    metadata := { name := "invalid-msg", «namespace» := "kargo", labels := [] }
    spec :=
      { slackChannel := ""
        message := "Test message"
        team := ""
        channelType := ""
        subscriptions := [] }
    status := { createdAt := 0, state := "" } }

/-- A candidate with valid required fields but a malformed second subscription
entry (empty stage), followed by a further malformed entry. -/
def msgBadSub : MockKargoMessage :=
  { apiVersion := "kargo.akuity.io/v1alpha1"
    kind := "SlackMessage"
    metadata := { name := "bad-sub-msg", «namespace» := "kargo", labels := [] }
    spec :=
      { slackChannel := "team-alerts"
        message := "Test message"
        team := ""
        channelType := ""
        subscriptions :=
          [{ stage := "production", events := ["PromoteSucceeded"] },
           { stage := "", events := ["PromoteFailed"] },
           { stage := "staging", events := [] }] }
    status := { createdAt := 0, state := "" } }

/-- An admission request with uid test-http-uid whose object is `msgValid`. -/
def reqValid : WebhookRequest :=
  { apiVersion := "admission.k8s.io/v1"
    kind := "AdmissionReview"
    request :=
      { uid := "test-http-uid"
        dryRun := false
        object := ObjectValue.mapping msgValid
        resource := { group := "kargo.akuity.io", version := "v1alpha1", resource := "slackmessages" }
        subResource := "" } }

/-- An admission request whose object field is absent/null. -/
def reqNullObject : WebhookRequest :=
  { apiVersion := "admission.k8s.io/v1"
    kind := "AdmissionReview"
    request :=
      { uid := "null-object-uid"
        dryRun := false
        object := ObjectValue.null
        resource := { group := "kargo.akuity.io", version := "v1alpha1", resource := "slackmessages" }
        subResource := "" } }

/-! Claim theorems. -/

/-- C1: a candidate with a non-empty target-channel identifier, a non-empty
owning namespace, and every subscription entry carrying a non-empty stage and
at least one event is allowed: `ValidateMessage` answers `allowed = true`
with no error whenever the check completes within the configured timeout
(the mock check client always succeeds). -/
theorem validateMessage_allows_wellFormed (v : Validator) (st : MockSlackClient)
    (msg : MockKargoMessage) (nowNanos checkDuration : Nat)
    (hch : msg.spec.slackChannel ≠ "") (hns : msg.metadata.«namespace» ≠ "")
    (hsubs : ∀ s ∈ msg.spec.subscriptions, s.stage ≠ "" ∧ s.events ≠ [])
    (hdur : checkDuration < v.timeout) :
    (ValidateMessage v st msg nowNanos checkDuration).1.response.allowed = true ∧
    (ValidateMessage v st msg nowNanos checkDuration).2.1 = none := by
  have hcs := checkSubscriptions_none_of_wf _ hsubs
  have hv : validateSlackChannelCreation st msg =
      (Except.ok (),
       (CreateConversation st msg.spec.slackChannel (msg.spec.channelType == "private")).2) := by
    rw [validateSCC_after_fields st msg hch hns, hcs]
  simp only [ValidateMessage]
  rw [if_pos hdur, hv]
  exact ⟨rfl, rfl⟩

/-- C1 witness: the repository's success scenario is allowed. -/
theorem validateMessage_allows_wellFormed_witness :
    (ValidateMessage NewValidator NewMockSlackClient msgValid 12345 150).1.response.allowed = true ∧
    (ValidateMessage NewValidator NewMockSlackClient msgValid 12345 150).2.1 = none :=
  validateMessage_allows_wellFormed NewValidator NewMockSlackClient msgValid 12345 150
    (by decide) (by decide) (by decide) (by decide)

/-- C2: when the configured budget expires before the check completes,
`ValidateMessage` answers the fixed timeout denial — `allowed = false`,
result `{status: Failure, reason: Slack channel validation timeout}` — with a
deadline-exceeded error, and the response is a constant independent of the
candidate and of the check's eventual outcome (the in-flight result is
discarded). -/
theorem validateMessage_timeout_denial (v : Validator) (st : MockSlackClient)
    (msg : MockKargoMessage) (nowNanos checkDuration : Nat)
    (hdur : v.timeout ≤ checkDuration) :
    ValidateMessage v st msg nowNanos checkDuration =
      ({ apiVersion := "admission.k8s.io/v1"
         kind := "AdmissionReview"
         response :=
           { uid := "test-uid-" ++ toString nowNanos
             allowed := false
             patch := []
             patchType := ""
             result := some { status := "Failure"
                              reason := "Slack channel validation timeout" } } },
       some ValidatorError.deadlineExceeded, st) := by
  simp only [ValidateMessage]
  rw [if_neg (Nat.not_lt.mpr hdur)]

/-- C2 witness: a 30000 ms check against the default 30000 ms budget times
out on the valid candidate. -/
theorem validateMessage_timeout_denial_witness :
    ValidateMessage NewValidator NewMockSlackClient msgValid 7 30000 =
      ({ apiVersion := "admission.k8s.io/v1"
         kind := "AdmissionReview"
         response :=
           { uid := "test-uid-" ++ toString 7
             allowed := false
             patch := []
             patchType := ""
             result := some { status := "Failure"
                              reason := "Slack channel validation timeout" } } },
       some ValidatorError.deadlineExceeded, NewMockSlackClient) :=
  validateMessage_timeout_denial NewValidator NewMockSlackClient msgValid 7 30000 (by decide)

/-- C3 counterexample: for the request with uid test-http-uid the handler's
response carries uid test-uid-12345, not the request's uid — the response
identifier is freshly generated, never copied from the request. -/
theorem webhookHandler_uid_differs_cex :
    (WebhookHandler NewValidator NewMockSlackClient (HandlerInput.parsed reqValid) 12345 150).respBody.map
        (fun r => r.response.uid) = some "test-uid-12345" ∧
    reqValid.request.uid = "test-http-uid" ∧
    ("test-uid-12345" : String) ≠ "test-http-uid" := by
  refine ⟨by decide, rfl, by decide⟩

/-- C3 (amended): the response does not echo the request identifier; on every
path `ValidateMessage` stamps the response with the freshly generated
identifier test-uid-(UnixNano), independent of the inbound request. -/
theorem validateMessage_uid_fresh (v : Validator) (st : MockSlackClient)
    (msg : MockKargoMessage) (nowNanos checkDuration : Nat) :
    (ValidateMessage v st msg nowNanos checkDuration).1.response.uid =
      "test-uid-" ++ toString nowNanos := by
  simp only [ValidateMessage]
  by_cases h : checkDuration < v.timeout
  · rw [if_pos h]
    cases hr : (validateSlackChannelCreation st msg).1 <;> simp [hr]
  · rw [if_neg h]

/-- C4: a candidate with an empty target-channel identifier is denied, with a
reason containing the exact message slackChannel is required, regardless of
every other field, whenever the check completes within the budget. -/
theorem validateMessage_missingChannel_denied (v : Validator) (st : MockSlackClient)
    (msg : MockKargoMessage) (nowNanos checkDuration : Nat)
    (hch : msg.spec.slackChannel = "") (hdur : checkDuration < v.timeout) :
    (ValidateMessage v st msg nowNanos checkDuration).1.response.allowed = false ∧
    ∃ info, (ValidateMessage v st msg nowNanos checkDuration).1.response.result = some info ∧
      strContainsSub info.reason "slackChannel is required" = true := by
  have hv : validateSlackChannelCreation st msg =
      (Except.error "slackChannel is required", st) := by
    unfold validateSlackChannelCreation
    rw [if_pos hch]
  simp only [ValidateMessage]
  rw [if_pos hdur, hv]
  exact ⟨rfl, ⟨_, rfl, by decide⟩⟩

/-- C4 witness: the empty-channel candidate is denied with the
missing-field reason. -/
theorem validateMessage_missingChannel_denied_witness :
    (ValidateMessage NewValidator NewMockSlackClient msgNoChannel 1 0).1.response.allowed = false ∧
    ∃ info, (ValidateMessage NewValidator NewMockSlackClient msgNoChannel 1 0).1.response.result = some info ∧
      strContainsSub info.reason "slackChannel is required" = true :=
  validateMessage_missingChannel_denied NewValidator NewMockSlackClient msgNoChannel 1 0
    rfl (by decide)

/-- C5: the domain check evaluates its rules in the fixed order — channel
identifier, then namespace, then external create-plus-verify, then
subscriptions in list order — failing fast: when an earlier rule denies, the
client state is untouched, and among subscriptions the first entry with an
empty stage or empty events determines the reason, independently of every
later entry. -/
theorem validateSCC_rule_order (st : MockSlackClient) (msg : MockKargoMessage) :
    (msg.spec.slackChannel = "" →
      validateSlackChannelCreation st msg = (Except.error "slackChannel is required", st)) ∧
    (msg.spec.slackChannel ≠ "" → msg.metadata.«namespace» = "" →
      validateSlackChannelCreation st msg = (Except.error "namespace is required", st)) ∧
    (msg.spec.slackChannel ≠ "" → msg.metadata.«namespace» ≠ "" →
      validateSlackChannelCreation st msg =
        ((match checkSubscriptions msg.spec.subscriptions with
          | some e => Except.error e
          | none => Except.ok ()),
         (CreateConversation st msg.spec.slackChannel (msg.spec.channelType == "private")).2)) ∧
    (∀ (pre : List Subscription) (bad : Subscription) (rest : List Subscription) (e : String),
      msg.spec.subscriptions = pre ++ bad :: rest →
      (∀ s ∈ pre, subscriptionViolation s = none) →
      subscriptionViolation bad = some e →
      checkSubscriptions msg.spec.subscriptions = some e) := by
  refine ⟨?_, ?_, ?_, ?_⟩
  · intro h
    unfold validateSlackChannelCreation
    rw [if_pos h]
  · intro h1 h2
    unfold validateSlackChannelCreation
    rw [if_neg h1, if_pos h2]
  · intro h1 h2
    exact validateSCC_after_fields st msg h1 h2
  · intro pre bad rest e hsplit hpre hbad
    rw [hsplit]
    exact checkSubscriptions_first bad rest e hbad pre hpre

/-- C5 witness: the empty-channel candidate denies with state untouched, and
on the three-entry subscription list the second (first malformed) entry's
stage violation is the reason, short-circuiting the third entry. -/
theorem validateSCC_rule_order_witness :
    validateSlackChannelCreation NewMockSlackClient msgNoChannel =
      (Except.error "slackChannel is required", NewMockSlackClient) ∧
    checkSubscriptions msgBadSub.spec.subscriptions = some "subscription stage cannot be empty" :=
  ⟨(validateSCC_rule_order NewMockSlackClient msgNoChannel).1 rfl,
   (validateSCC_rule_order NewMockSlackClient msgBadSub).2.2.2
     [{ stage := "production", events := ["PromoteSucceeded"] }]
     { stage := "", events := ["PromoteFailed"] }
     [{ stage := "staging", events := [] }]
     "subscription stage cannot be empty" rfl (by decide) (by decide)⟩

/-- C6: a body that fails to read, a body that is not well-formed JSON, and a
parsed envelope whose object field is null/absent or not a structured mapping
all answer HTTP 400 with no response body, without invoking the Validator and
without touching the client state. -/
theorem webhookHandler_decode_abort (v : Validator) (st : MockSlackClient)
    (nowNanos checkDuration : Nat) :
    (WebhookHandler v st HandlerInput.readFailure nowNanos checkDuration =
      { status := 400, respBody := none, validatorInvoked := false, finalState := st }) ∧
    (WebhookHandler v st HandlerInput.malformedJson nowNanos checkDuration =
      { status := 400, respBody := none, validatorInvoked := false, finalState := st }) ∧
    (∀ req : WebhookRequest, req.request.object = ObjectValue.null →
      WebhookHandler v st (HandlerInput.parsed req) nowNanos checkDuration =
        { status := 400, respBody := none, validatorInvoked := false, finalState := st }) ∧
    (∀ req : WebhookRequest, req.request.object = ObjectValue.nonMapping →
      WebhookHandler v st (HandlerInput.parsed req) nowNanos checkDuration =
        { status := 400, respBody := none, validatorInvoked := false, finalState := st }) := by
  refine ⟨rfl, rfl, ?_, ?_⟩ <;> intro req h <;> simp [WebhookHandler, h]

/-- C6 witness: the request whose object field is null answers 400 with the
Validator not invoked. -/
theorem webhookHandler_decode_abort_witness :
    WebhookHandler NewValidator NewMockSlackClient (HandlerInput.parsed reqNullObject) 1 0 =
      { status := 400, respBody := none, validatorInvoked := false,
        finalState := NewMockSlackClient } :=
  (webhookHandler_decode_abort NewValidator NewMockSlackClient 1 0).2.2.1 reqNullObject rfl

/-- C7: for a decoded mapping object, a Validator error maps to HTTP 500 with
the fully-formed denial envelope still encoded as the body, and a Validator
success maps to HTTP 200 with the envelope as the body. -/
theorem webhookHandler_status_mapping (v : Validator) (st : MockSlackClient)
    (nowNanos checkDuration : Nat) (req : WebhookRequest) (msg : MockKargoMessage)
    (hobj : req.request.object = ObjectValue.mapping msg) :
    ((ValidateMessage v st msg nowNanos checkDuration).2.1 = none →
      WebhookHandler v st (HandlerInput.parsed req) nowNanos checkDuration =
        { status := 200
          respBody := some (ValidateMessage v st msg nowNanos checkDuration).1
          validatorInvoked := true
          finalState := (ValidateMessage v st msg nowNanos checkDuration).2.2 }) ∧
    (∀ e, (ValidateMessage v st msg nowNanos checkDuration).2.1 = some e →
      WebhookHandler v st (HandlerInput.parsed req) nowNanos checkDuration =
        { status := 500
          respBody := some (ValidateMessage v st msg nowNanos checkDuration).1
          validatorInvoked := true
          finalState := (ValidateMessage v st msg nowNanos checkDuration).2.2 }) := by
  constructor
  · intro h
    simp [WebhookHandler, hobj, h]
  · intro e h
    simp [WebhookHandler, hobj, h]

/-- C7 witness: the valid request validates without error and is answered
with HTTP 200 and the envelope as body. -/
theorem webhookHandler_status_mapping_witness :
    WebhookHandler NewValidator NewMockSlackClient (HandlerInput.parsed reqValid) 1 0 =
      { status := 200
        respBody := some (ValidateMessage NewValidator NewMockSlackClient msgValid 1 0).1
        validatorInvoked := true
        finalState := (ValidateMessage NewValidator NewMockSlackClient msgValid 1 0).2.2 } :=
  (webhookHandler_status_mapping NewValidator NewMockSlackClient 1 0 reqValid msgValid rfl).1
    (by decide)

/-- C8: the identifier returned by `CreateConversation` exists immediately
after creation and still exists after any further sequence of creation
calls — `ChannelExists` never toggles back to false, because the registry is
only ever extended or overwritten at the new key, never erased. -/
theorem channelExists_stable_after_create (st : MockSlackClient) (name : String)
    (isPrivate : Bool) (calls : List (String × Bool)) :
    ChannelExists (CreateConversation st name isPrivate).2
        (CreateConversation st name isPrivate).1 = true ∧
    ChannelExists (applyCreates (CreateConversation st name isPrivate).2 calls)
        (CreateConversation st name isPrivate).1 = true :=
  ⟨channelExists_create st name isPrivate,
   channelExists_applyCreates _ calls _ (channelExists_create st name isPrivate)⟩

/-- C9: when the required fields are present but a subscription entry is
malformed, the check still performs the channel creation before denying: it
returns the denial together with the post-creation client state, in which the
newly allocated identifier exists, and the registry has grown by one entry
whenever that identifier was fresh. -/
theorem validateSCC_records_channel_despite_denial (st : MockSlackClient)
    (msg : MockKargoMessage) (pre : List Subscription) (bad : Subscription)
    (rest : List Subscription) (e : String)
    (hch : msg.spec.slackChannel ≠ "") (hns : msg.metadata.«namespace» ≠ "")
    (hsplit : msg.spec.subscriptions = pre ++ bad :: rest)
    (hpre : ∀ s ∈ pre, subscriptionViolation s = none)
    (hbad : subscriptionViolation bad = some e)
    (hfresh : ChannelExists st (chanId st.channels.length) = false) :
    validateSlackChannelCreation st msg =
      (Except.error e,
       (CreateConversation st msg.spec.slackChannel (msg.spec.channelType == "private")).2) ∧
    ChannelExists (validateSlackChannelCreation st msg).2
      (CreateConversation st msg.spec.slackChannel (msg.spec.channelType == "private")).1 = true ∧
    (validateSlackChannelCreation st msg).2.channels.length = st.channels.length + 1 := by
  have hcs : checkSubscriptions msg.spec.subscriptions = some e := by
    rw [hsplit]
    exact checkSubscriptions_first bad rest e hbad pre hpre
  have hv : validateSlackChannelCreation st msg =
      (Except.error e,
       (CreateConversation st msg.spec.slackChannel (msg.spec.channelType == "private")).2) := by
    rw [validateSCC_after_fields st msg hch hns, hcs]
  refine ⟨hv, ?_, ?_⟩
  · rw [hv]
    exact channelExists_create st _ _
  · rw [hv]
    simp only [CreateConversation]
    exact mapInsert_length_of_fresh _ _ st.channels (by simpa [ChannelExists] using hfresh)

/-- C9 witness: on a fresh client the candidate with a malformed second
subscription entry is denied, yet the registry gained the newly created
channel. -/
theorem validateSCC_records_channel_despite_denial_witness :
    validateSlackChannelCreation NewMockSlackClient msgBadSub =
      (Except.error "subscription stage cannot be empty",
       (CreateConversation NewMockSlackClient msgBadSub.spec.slackChannel
         (msgBadSub.spec.channelType == "private")).2) ∧
    ChannelExists (validateSlackChannelCreation NewMockSlackClient msgBadSub).2
      (CreateConversation NewMockSlackClient msgBadSub.spec.slackChannel
        (msgBadSub.spec.channelType == "private")).1 = true ∧
    (validateSlackChannelCreation NewMockSlackClient msgBadSub).2.channels.length =
      NewMockSlackClient.channels.length + 1 :=
  validateSCC_records_channel_despite_denial NewMockSlackClient msgBadSub
    [{ stage := "production", events := ["PromoteSucceeded"] }]
    { stage := "", events := ["PromoteFailed"] }
    [{ stage := "staging", events := [] }]
    "subscription stage cannot be empty"
    (by decide) (by decide) rfl (by decide) (by decide) (by decide)

/-- C10: the logging/echo receiver rejects before touching the body — 405 for
a non-POST method, 401 when the secret header is absent (empty), 403 when it
does not match — and a POST with the correct secret reaches body processing,
answering 200 with the success echo when the body reads. -/
theorem echoHandler_gate (method secret : String) (bodyReadOk : Bool) :
    (method ≠ "POST" → webhookHandler method secret bodyReadOk =
      { status := 405, bodyProcessed := false, respMessage := none }) ∧
    (secret = "" → webhookHandler "POST" secret bodyReadOk =
      { status := 401, bodyProcessed := false, respMessage := none }) ∧
    (secret ≠ "" → secret ≠ expectedSecret → webhookHandler "POST" secret bodyReadOk =
      { status := 403, bodyProcessed := false, respMessage := none }) ∧
    ((webhookHandler "POST" expectedSecret bodyReadOk).bodyProcessed = true ∧
     (bodyReadOk = true → webhookHandler "POST" expectedSecret bodyReadOk =
       { status := 200, bodyProcessed := true,
         respMessage := some "Webhook received successfully" })) := by
  refine ⟨?_, ?_, ?_, ?_, ?_⟩
  · intro h
    simp [webhookHandler, h]
  · intro h
    subst h
    rfl
  · intro h1 h2
    unfold webhookHandler
    rw [if_neg (by decide : ¬(("POST" : String) ≠ "POST")), if_pos h1, if_pos h2]
  · unfold webhookHandler
    rw [if_neg (by decide : ¬(("POST" : String) ≠ "POST")),
        if_pos (by decide : (expectedSecret ≠ "")),
        if_neg (by decide : ¬(expectedSecret ≠ expectedSecret))]
    cases bodyReadOk <;> rfl
  · intro hb
    subst hb
    unfold webhookHandler
    rw [if_neg (by decide : ¬(("POST" : String) ≠ "POST")),
        if_pos (by decide : (expectedSecret ≠ "")),
        if_neg (by decide : ¬(expectedSecret ≠ expectedSecret)),
        if_pos rfl]

/-- C10 witness: a GET is 405, a POST without secret is 401, a POST with a
wrong secret is 403, and a POST with the expected secret echoes success with
200. -/
theorem echoHandler_gate_witness :
    webhookHandler "GET" "my-super-secret-123" true =
      { status := 405, bodyProcessed := false, respMessage := none } ∧
    webhookHandler "POST" "" true =
      { status := 401, bodyProcessed := false, respMessage := none } ∧
    webhookHandler "POST" "wrong" true =
      { status := 403, bodyProcessed := false, respMessage := none } ∧
    webhookHandler "POST" expectedSecret true =
      { status := 200, bodyProcessed := true,
        respMessage := some "Webhook received successfully" } :=
  ⟨(echoHandler_gate "GET" "my-super-secret-123" true).1 (by decide),
   (echoHandler_gate "POST" "" true).2.1 rfl,
   (echoHandler_gate "POST" "wrong" true).2.2.1 (by decide) (by decide),
   (echoHandler_gate "POST" expectedSecret true).2.2.2.2 rfl⟩
